import Mathlib

/-!
Shallow embedding of the calibre Audible metadata-source plugin
(`src/__init__.py`, `src/worker.py`) and proofs about its behaviour.

Python strings are modelled as Lean `String`, Python `None`-able values as
`Option`, Python lists as `List`, Python floats as `Rat` (the numeric values
arising here are decimal literals), and Python dicts as association lists.
Truthiness of an optional string (`if s:`) is `optTruthy`/`strTruthy`.
-/

namespace AudiblePlugin

/-- Truthiness of a Python optional string: `None` and `""` are falsy. -/
def optTruthy : Option String → Bool
  | none => false
  | some s => !(s == "")

/-- Value of a list of decimal digit characters, most significant first. -/
def digitsToNat (cs : List Char) : Nat :=
  cs.foldl (fun a c => a * 10 + (c.toNat - 48)) 0

/-- Model of Python `str.split(' ')` on the character list: split at every
single space character, keeping empty fields (`"a  b"` gives `a`, `""`, `b`;
`""` gives one empty field). -/
def splitOnSpaceChars : List Char → List (List Char)
  | [] => [[]]
  | c :: rest =>
    let r := splitOnSpaceChars rest
    if c = ' ' then [] :: r
    else
      match r with
      | [] => [[c]]
      | h :: t => (c :: h) :: t

/-- Model of Python `s.split(' ')`. -/
def pySplitSpace (s : String) : List String :=
  (splitOnSpaceChars s.data).map String.mk

/-- Split a character list at every character satisfying `p`, keeping empty
fields. -/
def splitOnPredChars (p : Char → Bool) : List Char → List (List Char)
  | [] => [[]]
  | c :: rest =>
    let r := splitOnPredChars p rest
    if p c then [] :: r
    else
      match r with
      | [] => [[c]]
      | h :: t => (c :: h) :: t

/-- Model of Python `s.split()` with no argument: split on runs of whitespace
and drop empty fields.  (Lean's `Char.isWhitespace` covers space, tab, CR and
LF, which is the part of Python's whitespace class relevant here.) -/
def pySplitWhitespaceTokens (s : String) : List String :=
  ((splitOnPredChars Char.isWhitespace s.data).map String.mk).filter
    (fun t => t ≠ "")

/-- Strip leading and trailing whitespace, as Python `float` does before
parsing. -/
def trimChars (cs : List Char) : List Char :=
  ((cs.dropWhile Char.isWhitespace).reverse.dropWhile Char.isWhitespace).reverse

/-- Parse an optionally signed non-empty run of digits, as the exponent part
of a Python float literal. -/
def parseSignedDigits (cs : List Char) : Option Int :=
  let (neg, r) :=
    match cs with
    | '-' :: r => (true, r)
    | '+' :: r => (false, r)
    | r => (false, r)
  if r ≠ [] ∧ r.all Char.isDigit then
    some ((if neg then -1 else 1) * (digitsToNat r : Int))
  else none

/-- Parse the optional exponent suffix of a Python float literal; the empty
remainder means exponent `0`, anything else must be `e`/`E` followed by a
signed digit run. -/
def parseExpSuffix (cs : List Char) : Option Int :=
  match cs with
  | [] => some 0
  | 'e' :: r => parseSignedDigits r
  | 'E' :: r => parseSignedDigits r
  | _ => none

/-- Model of Python `float(s)` on the decimal grammar used by this plugin:
optional surrounding whitespace, optional sign, digits with an optional
fractional part (at least one digit overall), optional decimal exponent.
(`inf`/`nan`/underscores are not modelled; no input here uses them.)
Returns `none` where Python raises `ValueError`. -/
def pyFloat (s : String) : Option Rat :=
  let cs := trimChars s.data
  let (neg, cs1) :=
    match cs with
    | '-' :: r => (true, r)
    | '+' :: r => (false, r)
    | r => (false, r)
  let ip := cs1.takeWhile Char.isDigit
  let rest := cs1.dropWhile Char.isDigit
  let (fp, rest2) :=
    match rest with
    | '.' :: r => (r.takeWhile Char.isDigit, r.dropWhile Char.isDigit)
    | _ => ([], rest)
  if ip.isEmpty && fp.isEmpty then none
  else
    match parseExpSuffix rest2 with
    | none => none
    | some e =>
      let mag : Rat :=
        (digitsToNat ip : Rat) + (digitsToNat fp : Rat) / (10 : Rat) ^ fp.length
      some ((if neg then -1 else 1) * mag * (10 : Rat) ^ e)

/-- Model of Python `str.lower()` (ASCII range, which is what the genre keys
use). -/
def pyLower (s : String) : String :=
  String.mk (s.data.map Char.toLower)

/-- Model of Python `str.capitalize()`: first character upper-cased, the rest
lower-cased. -/
def pyCapitalize (s : String) : String :=
  match s.data with
  | [] => ""
  | c :: rest => String.mk (c.toUpper :: rest.map Char.toLower)

/-- Model of Python `', '.join(xs)`. -/
def joinComma : List String → String
  | [] => ""
  | [x] => x
  | x :: xs => x ++ ", " ++ joinComma xs

/-! ### URL constants and `Audible.create_query` (`src/__init__.py`) -/

def AUDIBLE_URL : String := "https://www.audible.com"
def AUDIBLE_API_URL : String := "https://api.audible.com"
def AUDNEXUS_URL : String := "https://api.audnex.us"
def AUDIBLE_PATH : String := "/pd/"
def AUDIBLE_API_PATH : String := "/1.0/catalog/products?"
def AUDNEXUS_PATH : String := "/books/"
def AUDIBLE_QUERY : String := "?ipRedirectOverride=true"
def AUDIBLE_API_QUERY : String := "num_results=25&products_sort_by=Relevance"
def AUDIBLE_API_TITLE_QUERY : String := "&title="
def AUDIBLE_API_AUTHOR_QUERY : String := "&author="

/-- `Audible.create_query(log, title, authors, identifiers, asin)`.
`identifiers` is the host's identifier map (`identifiers.get('audible')` is
`List.lookup`); a Python `authors=None` is modelled as `[]` (both are falsy
and `authors[0]` is only read when the list is truthy). -/
def create_query (title : Option String) (authors : List String)
    (identifiers : List (String × String)) (asin : Option String) :
    Option String :=
  let audible_id : Option String :=
    if optTruthy asin then asin else identifiers.lookup "audible"
  let q : String :=
    if optTruthy audible_id then
      AUDNEXUS_URL ++ AUDNEXUS_PATH ++ audible_id.getD ""
    else if optTruthy title || !authors.isEmpty then
      let q1 := AUDIBLE_API_URL ++ AUDIBLE_API_PATH ++ AUDIBLE_API_QUERY
      let q2 :=
        if optTruthy title then q1 ++ AUDIBLE_API_TITLE_QUERY ++ title.getD ""
        else q1
      if !authors.isEmpty then q2 ++ AUDIBLE_API_AUTHOR_QUERY ++ authors.headD ""
      else q2
    else ""
  if q == "" then none else some q

/-! ### Worker data model (`src/worker.py`) -/

/-- The `seriesPrimary` object of an Audnexus detail document: the fields the
worker reads (`["name"]`, `["position"]`). -/
structure SeriesNode where
  name : String
  position : String
deriving DecidableEq, Inhabited

/-- An Audnexus detail document (the parsed JSON `root`), restricted to the
keys `parse_details` reads.  `none` on a field means reading that key raises
in Python (missing key, or a value on which the access in the `try` block
fails); where the worker distinguishes a present-but-falsy value from a
missing key, the field is doubly optional:
* `authors` / `narrators`: list of the `"name"` strings of the array elements
  (`none`: extraction raises — key missing or not iterable);
* `seriesPrimary`: `none` = key missing (`KeyError`), `some none` = present
  but falsy (`null`/`{}`), `some (some node)` = a real node;
* `summary`: `none` = key missing (`KeyError`, the value is read outside any
  per-field guard later), `some none` = present but `null`;
* `rating`: the value handed to `float(...)`, as a string;
* `image`: `none` = key missing or `null` (both leave `cover_url = None`);
* `genres`: the `"name"` strings of the array (`none` = key missing). -/
structure Root where
  asin : Option String
  title : Option String
  authors : Option (List String)
  narrators : Option (List String)
  seriesPrimary : Option (Option SeriesNode)
  rating : Option String
  summary : Option (Option String)
  image : Option String
  genres : Option (List String)
  publisherName : Option String
  releaseDate : Option String
  language : Option String
deriving DecidableEq, Inhabited

/-- The date produced by `Worker._convert_date_text` (the time part is zeroed
by the code). -/
structure PubDate where
  year : Nat
  month : Nat
  day : Nat
deriving DecidableEq, Inhabited

/-- The calibre `Metadata` object as the worker populates it: a field the
worker never sets (because its extraction failed) is `none`/default. -/
structure Metadata where
  title : String
  authors : List String
  audible_identifier : Option String
  series : Option String
  series_index : Option Rat
  rating : Option Rat
  has_cover : Bool
  tags : Option (List String)
  publisher : Option String
  pubdate : Option PubDate
  language : Option String
  comments : String
  source_relevance : Nat
deriving DecidableEq, Inhabited

/-- What a successful `parse_details` run hands to the host: the record put
on the result queue, and the identifier-to-cover-URL association cached via
`plugin.cache_identifier_to_cover_url` (`self.isbn` is initialised to `None`
and never assigned, so the isbn cache call is dead code and not modelled). -/
structure ParseOutcome where
  mi : Metadata
  cached_cover : Option (String × String)
deriving DecidableEq, Inhabited

/-- Result of one `parse_details` call: a record emitted to the queue, an
early `return` on the required-fields check, or an uncaught exception
(which `Worker.run` catches, so the thread dies silently with no record). -/
inductive PDResult where
  | emitted (out : ParseOutcome)
  | abandoned
  | crashed
deriving DecidableEq, Inhabited

/-- Truthiness of an optional string field (alias of `optTruthy`, named for
readability in the worker theorems). -/
def strTruthy : Option String → Bool := optTruthy

/-- `Worker.parse_series`: reads `root["seriesPrimary"]` (a missing key
raises out of the function), returns `(None, None)` on a falsy node, else
splits the position string on `' '` and converts the element at index 1 with
`float` — an out-of-range index (`IndexError`) or unparsable token
(`ValueError`) raises. -/
def parse_series (sp : Option (Option SeriesNode)) :
    Except Unit (Option (String × Rat)) :=
  match sp with
  | none => .error ()
  | some none => .ok none
  | some (some node) =>
    match (pySplitSpace node.position)[1]? with
    | none => .error ()
    | some t =>
      match pyFloat t with
      | none => .error ()
      | some v => .ok (some (node.name, v))

/-- Lookup in the genre map as the worker performs it: the map is rebuilt as
`dict((k.lower(), v) for (k, v) in lookup.items())` — so a later key with the
same lower-cased form overrides an earlier one — and probed with
`genre_tag.lower()`. -/
def lookupGenre (m : List (String × List String)) (g : String) :
    Option (List String) :=
  ((m.filter fun p => pyLower p.1 = pyLower g).getLast?).map Prod.snd

/-- One step of the worker's duplicate filter: `if tag not in tags_to_add:
tags_to_add.append(tag)`. -/
def addTag (acc : List String) (t : String) : List String :=
  if t ∈ acc then acc else acc ++ [t]

/-- `Worker._convert_genres_to_calibre_tags` with the user's genre→tag map
passed explicitly (the code reads it from the plugin config store). -/
def _convert_genres_to_calibre_tags (m : List (String × List String))
    (genre_tags : List String) : List String :=
  genre_tags.foldl
    (fun acc g =>
      match lookupGenre m g with
      | none => acc
      | some tags => if tags.isEmpty then acc else tags.foldl addTag acc)
    []

/-- `Worker.parse_tags`: a missing `genres` key raises out of the function
(caught by the caller); a falsy node or an empty conversion result returns
`None` by falling off the end. -/
def parse_tags (m : List (String × List String)) (genres : Option (List String)) :
    Except Unit (Option (List String)) :=
  match genres with
  | none => .error ()
  | some gs =>
    if gs.isEmpty then .ok none
    else
      let ct := _convert_genres_to_calibre_tags m gs
      if ct.length > 0 then .ok (some ct) else .ok none

/-- Check that the time part of a release date matches `%H:%M:%S.%fZ`:
two-digit numeric hour/minute/second in range and a 1–6 digit fraction. -/
def timePartOk (t : String) : Bool :=
  match splitOnPredChars (fun c => c = ':') t.data with
  | [h, m, s] =>
    (match (splitOnPredChars (fun c => c = '.') s).map String.mk with
     | [ss, fz] =>
       (match fz.data.reverse with
        | 'Z' :: fsRev =>
          let fs := fsRev.reverse
          h.length = 2 && h.all Char.isDigit && digitsToNat h ≤ 23 &&
          m.length = 2 && m.all Char.isDigit && digitsToNat m ≤ 59 &&
          ss.length = 2 && ss.data.all Char.isDigit && digitsToNat ss.data ≤ 59 &&
          decide (1 ≤ fs.length) && fs.length ≤ 6 && fs.all Char.isDigit
        | _ => false)
     | _ => false)
  | _ => false

/-- `Worker._convert_date_text`: `strptime(date_text, '%Y-%m-%dT%H:%M:%S.%fZ')`
reduced to the calendar fields the code keeps (the constructed `datetime`
zeroes the time).  Returns `none` where `strptime` raises. -/
def convert_date_text (s : String) : Option PubDate :=
  match splitOnPredChars (fun c => c = 'T') s.data |>.map String.mk with
  | [d, t] =>
    (match splitOnPredChars (fun c => c = '-') d.data with
     | [y, mo, dd] =>
       if y.length = 4 && y.all Char.isDigit &&
          mo.length = 2 && mo.all Char.isDigit &&
          decide (1 ≤ digitsToNat mo) && digitsToNat mo ≤ 12 &&
          dd.length = 2 && dd.all Char.isDigit &&
          decide (1 ≤ digitsToNat dd) && digitsToNat dd ≤ 31 &&
          timePartOk t then
         some ⟨digitsToNat y, digitsToNat mo, digitsToNat dd⟩
       else none
     | _ => none)
  | _ => none

/-- The record assembled by the tail of `Worker.parse_details` once the
required-fields check has passed and `narrators`/`summary` have been read
(each remaining field is set only if its guarded extraction succeeds):
* series: `parse_series` under `try`, set only when the returned name is not
  `None`;
* rating: `float(root["rating"])` under `try`;
* cover: `self.cover_url` starts as `None` and is overwritten by
  `root["image"]` if that read succeeds; `mi.has_cover = bool(self.cover_url)`;
* tags, publisher, pubdate, language: each under its own `try`;
* comments: the narrators paragraph (narrators is a list here, never `None`)
  followed by the summary when it is not `None`;
* cover cache: `cache_identifier_to_cover_url` is called exactly when
  `self.audible_id` and `self.cover_url` are truthy.
The `except` handler of the narrators block assigns `authors = []`, but the
`Metadata` object was already built from the original authors and the local
is never read again, so that slip has no further effect on this path. -/
def assembleRecord (m : List (String × List String)) (relevance : Nat)
    (root : Root) (narrators : List String) (summary : Option String) :
    ParseOutcome :=
  let audible_id := root.asin
  let seriesPair : Option (String × Rat) :=
    match parse_series root.seriesPrimary with
    | .ok (some p) => some p
    | _ => none
  let rating := root.rating.bind pyFloat
  let cover_url := root.image
  let tags : Option (List String) :=
    match parse_tags m root.genres with
    | .ok t => t
    | .error _ => none
  let comments :=
    "<p id=\"narrators\">Narrators: " ++ joinComma narrators ++ "</p>"
      ++ summary.getD ""
  let mi : Metadata :=
    { title := root.title.getD ""
      authors := root.authors.getD []
      audible_identifier := audible_id
      series := seriesPair.map Prod.fst
      series_index := seriesPair.map Prod.snd
      rating := rating
      has_cover := strTruthy cover_url
      tags := tags
      publisher := root.publisherName
      pubdate := root.releaseDate.bind convert_date_text
      language := root.language.map pyCapitalize
      comments := comments
      source_relevance := relevance }
  let cached : Option (String × String) :=
    if strTruthy audible_id then
      if strTruthy cover_url then
        match audible_id, cover_url with
        | some a, some c => some (a, c)
        | _, _ => none
      else none
    else none
  { mi := mi, cached_cover := cached }

/-- `Worker.parse_details(root)`:
* the three required reads are each guarded, defaulting to `None`/`[]`;
* `if not title or not authors or not audible_id: return` — no record;
* the narrators block's `except` handler assigns `authors = []` instead of
  binding `narrators`, so when that extraction fails the later
  `if narrators is not None:` raises `UnboundLocalError` — an uncaught
  exception, no record;
* likewise `summary = root["summary"]` under `try`: a failing read leaves
  `summary` unbound and `if summary is not None:` raises;
* otherwise the assembled record is emitted to the result queue. -/
def parse_details (m : List (String × List String)) (relevance : Nat)
    (root : Root) : PDResult :=
  let audible_id := root.asin
  let title := root.title
  let authors := root.authors.getD []
  if !(strTruthy title) || authors.isEmpty || !(strTruthy audible_id) then
    .abandoned
  else
    match root.narrators with
    | none => .crashed
    | some narrators =>
      match root.summary with
      | none => .crashed
      | some summary => .emitted (assembleRecord m relevance root narrators summary)

/-! ### `Audible.download_cover` (`src/__init__.py`) -/

/-- Keyword parameters accepted by `Audible.identify` (its positional
parameters `log`, `result_queue`, `abort` are passed positionally at the call
site in `download_cover`). -/
def identify_keyword_params : List String :=
  ["title", "authors", "identifiers", "timeout"]

/-- Keyword arguments `download_cover` passes in its call
`self.identify(log, rq, abort, title=..., authors=..., hiddenauthors=...,
identifiers=...)`. -/
def download_cover_identify_kwargs : List String :=
  ["title", "authors", "hiddenauthors", "identifiers"]

/-- Whether every keyword argument of that call names a parameter of
`identify`; if not, Python raises `TypeError` at the call site. -/
def identifyCallAccepted : Bool :=
  download_cover_identify_kwargs.all fun k => identify_keyword_params.contains k

/-- Result of one `Audible.download_cover` call. -/
inductive CoverResult where
  | raisedTypeError
  | aborted
  | emitted (url : String)
  | noCover
deriving DecidableEq, Inhabited

/-- `Audible.download_cover`, abstracted over the host collaborators:
`cached` is what `get_cached_cover_url(identifiers)` returns, `abortSet`
whether the abort flag is set when checked, `fetchOk` whether the image fetch
succeeds.  When the cache holds no URL the code calls
`self.identify(..., hiddenauthors=authors, ...)`; `identify` has no parameter
named `hiddenauthors` (`identifyCallAccepted = false`), so Python raises
`TypeError` before any identify work runs, and nothing catches it. -/
def download_cover (cached : Option String) (abortSet : Bool)
    (fetchOk : Bool) : CoverResult :=
  match cached with
  | none => .raisedTypeError
  | some url =>
    if abortSet then .aborted
    else if fetchOk then .emitted url
    else .noCover

/-! ### Spec-side definitions used to state claims -/

/-- The required-fields condition of the spec: identifier, title and authors
all present and non-empty. -/
def requiredPresent (root : Root) : Bool :=
  strTruthy root.asin && strTruthy root.title && !(root.authors.getD []).isEmpty

/-- Modelled from the spec: deduplication preserving first-seen order — keep
each element's first occurrence, in order. -/
def firstDedup (l : List String) : List String :=
  l.foldl addTag []

/-- The tags a single genre entry contributes through the map (empty when
the genre has no mapping). -/
def taggedOf (m : List (String × List String)) (g : String) : List String :=
  (lookupGenre m g).getD []

/-! ### Helper lemmas -/

theorem append_left_ne_empty (s t : String) (h : s ≠ "") : s ++ t ≠ "" := by
  intro he
  apply h
  apply String.ext
  have hd : s.data ++ t.data = [] := by
    have := congrArg String.data he
    rwa [String.data_append] at this
  have := List.append_eq_nil.mp hd
  simp [this.1]

theorem append_left_beq_empty_eq_false (s t : String) (h : s ≠ "") :
    ((s ++ t) == "") = false := by
  rw [beq_eq_false_iff_ne]
  exact append_left_ne_empty s t h

/-- The two URL families differ within their constant parts: no suffix choice
can make a detail-lookup URL equal a catalog-search URL. -/
theorem detail_url_ne_search_url (a b : String) :
    AUDNEXUS_URL ++ AUDNEXUS_PATH ++ a ≠ AUDIBLE_API_URL ++ AUDIBLE_API_PATH ++ b := by
  intro h
  have hd := congrArg (fun s : String => s.data[15]?) h
  simp only [String.data_append, List.append_assoc] at hd
  rw [List.getElem?_append_left (by decide), List.getElem?_append_left (by decide)] at hd
  exact absurd hd (by decide)

/-! ### C4 -/

/-- C4: with no title, no authors, no audible entry in the identifier map and
no asin override, `create_query` returns `None`. -/
theorem C4_create_query_insufficient_data (identifiers : List (String × String))
    (h : identifiers.lookup "audible" = none) :
    create_query none [] identifiers none = none := by
  simp [create_query, optTruthy, h]

/-- Witness for C4 at a concrete identifier map that has no audible entry. -/
theorem C4_create_query_insufficient_data_witness :
    ([("isbn", "1234567890")] : List (String × String)).lookup "audible" = none ∧
    create_query none [] [("isbn", "1234567890")] none = none :=
  ⟨by decide, C4_create_query_insufficient_data [("isbn", "1234567890")] (by decide)⟩

/-! ### C5 -/

/-- C5: whenever an audible identifier is available — as the `asin` argument
or as the map entry used when no asin is given — `create_query` returns the
detail-lookup URL `{AUDNEXUS_URL}/books/{id}` and never a catalog-search URL,
whatever `title` and `authors` are. -/
theorem C5_create_query_identifier_detail_url (title : Option String)
    (authors : List String) (identifiers : List (String × String))
    (asin : Option String) (aid : String) (hne : aid ≠ "")
    (h : asin = some aid ∨ (asin = none ∧ identifiers.lookup "audible" = some aid)) :
    create_query title authors identifiers asin
        = some (AUDNEXUS_URL ++ AUDNEXUS_PATH ++ aid) ∧
      ∀ rest : String, create_query title authors identifiers asin
        ≠ some (AUDIBLE_API_URL ++ AUDIBLE_API_PATH ++ rest) := by
  have hbeq : (aid == "") = false := by rwa [beq_eq_false_iff_ne]
  have hkey : create_query title authors identifiers asin
      = some (AUDNEXUS_URL ++ AUDNEXUS_PATH ++ aid) := by
    rcases h with h | ⟨h1, h2⟩
    · subst h
      simp [create_query, optTruthy, hbeq,
        append_left_beq_empty_eq_false _ _ (by decide : AUDNEXUS_URL ++ AUDNEXUS_PATH ≠ "")]
    · subst h1
      simp [create_query, optTruthy, h2, hbeq,
        append_left_beq_empty_eq_false _ _ (by decide : AUDNEXUS_URL ++ AUDNEXUS_PATH ≠ "")]
  refine ⟨hkey, fun rest hq => ?_⟩
  rw [hkey] at hq
  exact detail_url_ne_search_url aid rest (Option.some.inj hq)

/-- Witness for C5: a concrete call carrying both a title and authors along
with an identifier still produces the detail URL. -/
theorem C5_create_query_identifier_detail_url_witness :
    create_query (some "1984") ["George Orwell"] [("audible", "B002V19RO6")] none
      = some (AUDNEXUS_URL ++ AUDNEXUS_PATH ++ "B002V19RO6") :=
  (C5_create_query_identifier_detail_url (some "1984") ["George Orwell"]
    [("audible", "B002V19RO6")] none "B002V19RO6" (by decide)
    (Or.inr ⟨rfl, by decide⟩)).1

/-! ### C8 -/

/-- C8: with no identifier available, but a title or a non-empty authors
list, `create_query` returns exactly the catalog search URL
`{api_host}/1.0/catalog/products?num_results=25&products_sort_by=Relevance`
with `&title=<title>` appended when a title is present and
`&author=<first author>` appended when authors are present, both verbatim. -/
theorem C8_create_query_search_url (title : Option String)
    (authors : List String) (identifiers : List (String × String))
    (hid : identifiers.lookup "audible" = none)
    (hin : optTruthy title = true ∨ authors ≠ []) :
    create_query title authors identifiers none =
      some ("https://api.audible.com/1.0/catalog/products?num_results=25&products_sort_by=Relevance"
        ++ (if optTruthy title then "&title=" ++ title.getD "" else "")
        ++ (if authors.isEmpty then "" else "&author=" ++ authors.headD "")) := by
  have hbase : AUDIBLE_API_URL ++ AUDIBLE_API_PATH ++ AUDIBLE_API_QUERY
      = "https://api.audible.com/1.0/catalog/products?num_results=25&products_sort_by=Relevance" := by
    decide
  have hbasene : AUDIBLE_API_URL ++ AUDIBLE_API_PATH ++ AUDIBLE_API_QUERY ≠ "" := by decide
  have hnone : optTruthy (none : Option String) = false := rfl
  cases ht : optTruthy title with
  | true =>
    cases ha : authors.isEmpty with
    | true =>
      simp only [create_query, hnone, hid, ht, ha, AUDIBLE_API_TITLE_QUERY,
        Bool.not_true, Bool.true_or, Bool.false_eq_true, if_false, if_true]
      rw [append_left_beq_empty_eq_false _ _ (append_left_ne_empty _ _ hbasene)]
      simp [hbase, ← String.append_assoc]
    | false =>
      simp only [create_query, hnone, hid, ht, ha, AUDIBLE_API_TITLE_QUERY,
        AUDIBLE_API_AUTHOR_QUERY, Bool.not_false, Bool.true_or, Bool.or_true,
        Bool.false_eq_true, if_false, if_true]
      rw [append_left_beq_empty_eq_false _ _
        (append_left_ne_empty _ _
          (append_left_ne_empty _ _ (append_left_ne_empty _ _ hbasene)))]
      simp [hbase, ← String.append_assoc]
  | false =>
    cases ha : authors.isEmpty with
    | true =>
      exfalso
      rcases hin with hin | hin
      · rw [ht] at hin; exact Bool.false_ne_true hin
      · exact hin (List.isEmpty_iff.mp ha)
    | false =>
      simp only [create_query, hnone, hid, ht, ha, AUDIBLE_API_AUTHOR_QUERY,
        Bool.not_false, Bool.or_true, Bool.false_eq_true, if_false, if_true]
      rw [append_left_beq_empty_eq_false _ _ (append_left_ne_empty _ _ hbasene)]
      simp [hbase, ← String.append_assoc]

/-- Witness for C8: a concrete search query with both parameters appended
verbatim (note the unencoded space in the author name). -/
theorem C8_create_query_search_url_witness :
    create_query (some "1984") ["George Orwell"] [] none =
      some ("https://api.audible.com/1.0/catalog/products?num_results=25&products_sort_by=Relevance"
        ++ (if optTruthy (some "1984") then "&title=" ++ (some "1984").getD "" else "")
        ++ (if (["George Orwell"] : List String).isEmpty then ""
            else "&author=" ++ (["George Orwell"] : List String).headD "")) :=
  C8_create_query_search_url (some "1984") ["George Orwell"] [] (by decide)
    (Or.inl (by decide))

/-! ### Worker helper lemmas -/

/-- The worker's early-return guard is exactly the negation of the spec's
required-fields condition. -/
theorem guard_eq_not_required (root : Root) :
    (!(strTruthy root.title) || (root.authors.getD []).isEmpty || !(strTruthy root.asin))
      = !requiredPresent root := by
  unfold requiredPresent
  cases h1 : strTruthy root.asin <;> cases h2 : strTruthy root.title <;>
    cases h3 : (root.authors.getD []).isEmpty <;> simp [h1, h2, h3]

theorem parse_details_abandoned_of_required_false
    (m : List (String × List String)) (r : Nat) (root : Root)
    (h : requiredPresent root = false) :
    parse_details m r root = .abandoned := by
  simp only [parse_details]
  rw [guard_eq_not_required, h]
  rfl

theorem parse_details_emitted_form (m : List (String × List String)) (r : Nat)
    (root : Root) (ns : List String) (so : Option String)
    (hreq : requiredPresent root = true)
    (hn : root.narrators = some ns) (hs : root.summary = some so) :
    parse_details m r root = .emitted (assembleRecord m r root ns so) := by
  simp only [parse_details]
  rw [guard_eq_not_required, hreq, hn, hs]
  rfl

/-- Any emitted `parse_details` result arises from the `assembleRecord` arm,
with the guard passed and `narrators`/`summary` successfully read. -/
theorem parse_details_emitted_inv (m : List (String × List String)) (r : Nat)
    (root : Root) (out : ParseOutcome)
    (h : parse_details m r root = .emitted out) :
    requiredPresent root = true ∧
    ∃ ns so, root.narrators = some ns ∧ root.summary = some so ∧
      out = assembleRecord m r root ns so := by
  have hreq : requiredPresent root = true := by
    cases hr : requiredPresent root with
    | true => rfl
    | false =>
      rw [parse_details_abandoned_of_required_false m r root hr] at h
      exact PDResult.noConfusion h
  refine ⟨hreq, ?_⟩
  simp only [parse_details] at h
  rw [guard_eq_not_required, hreq] at h
  simp only [Bool.not_true, Bool.false_eq_true, if_false] at h
  cases hn : root.narrators with
  | none => rw [hn] at h; exact PDResult.noConfusion h
  | some ns =>
    rw [hn] at h
    cases hs : root.summary with
    | none => rw [hs] at h; exact PDResult.noConfusion h
    | some so =>
      rw [hs] at h
      exact ⟨ns, so, rfl, rfl, (PDResult.emitted.inj h).symm⟩

/-! ### C2 -/

/-- C2: a record is emitted only when identifier, title and authors are all
present and non-empty, and when any of the three is missing or empty the
worker abandons the candidate with zero records, regardless of every other
field. -/
theorem C2_required_fields_gate (m : List (String × List String)) (r : Nat)
    (root : Root) :
    (requiredPresent root = false → parse_details m r root = .abandoned) ∧
    (∀ out, parse_details m r root = .emitted out → requiredPresent root = true) :=
  ⟨parse_details_abandoned_of_required_false m r root,
   fun out h => (parse_details_emitted_inv m r root out h).1⟩

/-- Concrete root with a missing title but every other field valid. -/
def C2root : Root :=
  { asin := some "B002V19RO6"
    title := none
    authors := some ["George Orwell"]
    narrators := some ["Simon Prebble"]
    seriesPrimary := some none
    rating := some "4.5"
    summary := some (some "A dystopia.")
    image := some "https://img.example/1984.jpg"
    genres := some ["Fiction"]
    publisherName := some "Secker"
    releaseDate := some "1949-06-08T00:00:00.000Z"
    language := some "english" }

/-- Witness for C2: a document lacking only the title yields no record. -/
theorem C2_required_fields_gate_witness :
    requiredPresent C2root = false ∧ parse_details [] 0 C2root = .abandoned :=
  ⟨by decide, (C2_required_fields_gate [] 0 C2root).1 (by decide)⟩

/-! ### C1 -/

/-- Detail document with all three required fields present and valid, and
only the optional `narrators` field missing. -/
def C1root : Root :=
  { asin := some "B002V19RO6"
    title := some "1984"
    authors := some ["George Orwell"]
    narrators := none
    seriesPrimary := some none
    rating := some "4.5"
    summary := some (some "A dystopia.")
    image := some "https://img.example/1984.jpg"
    genres := some ["Fiction"]
    publisherName := some "Secker"
    releaseDate := some "1949-06-08T00:00:00.000Z"
    language := some "english" }

/-- C1 (code bug): on a document with valid required fields but no
`narrators` key, `parse_details` does not emit a record with the field
defaulted — the narrators `except` handler binds `authors` instead of
`narrators`, so the later `if narrators is not None:` raises
`UnboundLocalError` and the candidate dies with zero records. -/
theorem C1_missing_narrators_crashes :
    parse_details [] 0 C1root = .crashed ∧ requiredPresent C1root = true :=
  ⟨rfl, by decide⟩

/-! ### C9 -/

/-- C9: on every emitted record, `has_cover` is true exactly when the
document's `image` field is present and non-empty, and the identifier→cover
association is cached exactly when both the identifier and a non-empty image
URL are present (and then caches exactly that pair). -/
theorem C9_cover_flag_and_cache (m : List (String × List String)) (r : Nat)
    (root : Root) (out : ParseOutcome)
    (h : parse_details m r root = .emitted out) :
    out.mi.has_cover = strTruthy root.image ∧
    (out.cached_cover ≠ none ↔
      (strTruthy root.asin = true ∧ strTruthy root.image = true)) ∧
    (∀ a c, out.cached_cover = some (a, c) →
      root.asin = some a ∧ root.image = some c) := by
  obtain ⟨hreq, ns, so, hn, hs, hout⟩ := parse_details_emitted_inv m r root out h
  subst hout
  have hasin : strTruthy root.asin = true := by
    unfold requiredPresent at hreq
    simp only [Bool.and_eq_true] at hreq
    exact hreq.1.1
  refine ⟨by simp [assembleRecord], ?_, ?_⟩
  · cases ha : root.asin with
    | none => rw [ha] at hasin; exact absurd hasin (by decide)
    | some a =>
      rw [ha] at hasin
      cases hi : root.image with
      | none => simp [assembleRecord, ha, hi, hasin, strTruthy, optTruthy]
      | some c =>
        cases hsc : strTruthy (some c) with
        | true => simp [assembleRecord, ha, hi, hasin, hsc]
        | false => simp [assembleRecord, ha, hi, hasin, hsc]
  · intro a c hac
    cases ha : root.asin with
    | none => rw [ha] at hasin; exact absurd hasin (by decide)
    | some a' =>
      rw [ha] at hasin
      cases hi : root.image with
      | none => simp [assembleRecord, ha, hi, hasin, strTruthy, optTruthy] at hac
      | some c' =>
        cases hsc : strTruthy (some c') with
        | false => simp [assembleRecord, ha, hi, hasin, hsc] at hac
        | true =>
          simp only [assembleRecord, ha, hi, hasin, hsc, if_true] at hac
          simp only [Option.some.injEq, Prod.mk.injEq] at hac
          obtain ⟨rfl, rfl⟩ := hac
          exact ⟨rfl, rfl⟩

/-- Concrete root for the C9 witness: required fields valid, image present. -/
def C9root : Root :=
  { asin := some "B0TESTASIN"
    title := some "Title"
    authors := some ["Author"]
    narrators := some []
    seriesPrimary := none
    rating := none
    summary := some none
    image := some "https://img.example/cover.jpg"
    genres := none
    publisherName := none
    releaseDate := none
    language := none }

/-- Witness for C9 at a concrete emitted record. -/
theorem C9_cover_flag_and_cache_witness :
    parse_details [] 0 C9root = .emitted (assembleRecord [] 0 C9root [] none) ∧
    (assembleRecord [] 0 C9root [] none).mi.has_cover = strTruthy C9root.image ∧
    ((assembleRecord [] 0 C9root [] none).cached_cover ≠ none ↔
      (strTruthy C9root.asin = true ∧ strTruthy C9root.image = true)) := by
  have h : parse_details [] 0 C9root = .emitted (assembleRecord [] 0 C9root [] none) := rfl
  exact ⟨h, (C9_cover_flag_and_cache [] 0 C9root _ h).1,
    (C9_cover_flag_and_cache [] 0 C9root _ h).2.1⟩

/-! ### C10 -/

/-- C10 (amended from single-space splitting): when the series position
string, split at single space characters with empty fields kept (Python
`split(' ')`), has no element at index 1 or an element there that `float`
rejects, the series parse failure is caught: the record is still emitted
(narrators and summary being readable is what emission additionally needs)
and carries neither series name nor series index. -/
theorem C10_series_parse_failure_isolated (m : List (String × List String))
    (r : Nat) (root : Root) (name pos : String) (ns : List String)
    (so : Option String)
    (hsp : root.seriesPrimary = some (some ⟨name, pos⟩))
    (hreq : requiredPresent root = true)
    (hn : root.narrators = some ns) (hs : root.summary = some so)
    (hfail : (pySplitSpace pos)[1]? = none ∨
      (∃ t, (pySplitSpace pos)[1]? = some t ∧ pyFloat t = none)) :
    parse_details m r root = .emitted (assembleRecord m r root ns so) ∧
    (assembleRecord m r root ns so).mi.series = none ∧
    (assembleRecord m r root ns so).mi.series_index = none := by
  have hser : parse_series root.seriesPrimary = .error () := by
    rw [hsp]
    rcases hfail with hf | ⟨t, hf, hfl⟩
    · simp only [parse_series, hf]
    · simp only [parse_series, hf, hfl]
  refine ⟨parse_details_emitted_form m r root ns so hreq hn hs, ?_, ?_⟩ <;>
    simp [assembleRecord, hser]

/-- Concrete root for the C10 witness: a one-token series position. -/
def C10root : Root :=
  { asin := some "B0SERIES01"
    title := some "Title"
    authors := some ["Author"]
    narrators := some ["Narrator"]
    seriesPrimary := some (some ⟨"Cycle", "Book"⟩)
    rating := none
    summary := some none
    image := none
    genres := none
    publisherName := none
    releaseDate := none
    language := none }

/-- Witness for C10: position `"Book"` has no second space-separated field,
the record is still emitted and has no series fields. -/
theorem C10_series_parse_failure_isolated_witness :
    (pySplitSpace "Book")[1]? = none ∧
    parse_details [] 0 C10root = .emitted (assembleRecord [] 0 C10root ["Narrator"] none) ∧
    (assembleRecord [] 0 C10root ["Narrator"] none).mi.series = none ∧
    (assembleRecord [] 0 C10root ["Narrator"] none).mi.series_index = none := by
  have h := C10_series_parse_failure_isolated [] 0 C10root "Cycle" "Book"
    ["Narrator"] none rfl (by decide) rfl rfl (Or.inl (by decide))
  exact ⟨by decide, h.1, h.2.1, h.2.2⟩

/-- Concrete root for the C10 counterexample: the position string
`"a\tb 3"` has the whitespace-separated tokens `a`, `b`, `3` — fewer than
two is false, but the second token `b` is non-numeric, so the claim as
stated predicts a caught failure with the series dropped. -/
def C10cexroot : Root :=
  { asin := some "B0SERIES02"
    title := some "Title"
    authors := some ["Author"]
    narrators := some ["Narrator"]
    seriesPrimary := some (some ⟨"Saga", "a\tb 3"⟩)
    rating := none
    summary := some none
    image := none
    genres := none
    publisherName := none
    releaseDate := none
    language := none }

/-- C10 counterexample: with whitespace-splitting the second token of
`"a\tb 3"` is the non-numeric `"b"`, yet the code splits at single spaces
only, reads `"3"` at index 1, and emits the record WITH the series set —
the claim's predicted drop does not happen. -/
theorem C10_counterexample :
    pySplitWhitespaceTokens "a\tb 3" = ["a", "b", "3"] ∧
    pyFloat "b" = none ∧
    parse_details [] 0 C10cexroot
      = .emitted (assembleRecord [] 0 C10cexroot ["Narrator"] none) ∧
    (assembleRecord [] 0 C10cexroot ["Narrator"] none).mi.series = some "Saga" := by
  exact ⟨by decide, by decide, rfl, rfl⟩

/-! ### C7 -/

/-- C7 (amended from single-space splitting): whenever the position string,
split at single space characters with empty fields kept (Python
`split(' ')`), has an element at index 1 that `float` accepts, `parse_series`
returns the series name paired with that numeric value. -/
theorem C7_parse_series_second_field (name pos t : String) (v : Rat)
    (h1 : (pySplitSpace pos)[1]? = some t) (h2 : pyFloat t = some v) :
    parse_series (some (some ⟨name, pos⟩)) = .ok (some (name, v)) := by
  simp only [parse_series, h1, h2]

/-- Witness for C7: the position string `"Book 3"` parses to series index 3. -/
theorem C7_parse_series_second_field_witness :
    (pySplitSpace "Book 3")[1]? = some "3" ∧ pyFloat "3" = some 3 ∧
    parse_series (some (some ⟨"Stormlight", "Book 3"⟩))
      = .ok (some ("Stormlight", 3)) :=
  ⟨by decide, by simp [pyFloat, trimChars, digitsToNat, parseExpSuffix],
   C7_parse_series_second_field "Stormlight" "Book 3" "3" 3 (by decide)
     (by simp [pyFloat, trimChars, digitsToNat, parseExpSuffix])⟩

/-- C7 counterexample: `"Book  3"` (two spaces) consists of the two
whitespace-separated tokens `Book` and `3`, and the second token is numeric,
so the claim as stated predicts a successful parse to index 3; but the code
splits at every single space, finds the empty field `""` at index 1, and
`float('')` raises, so `parse_series` fails instead. -/
theorem C7_counterexample :
    pySplitWhitespaceTokens "Book  3" = ["Book", "3"] ∧
    pyFloat "3" = some 3 ∧
    parse_series (some (some ⟨"Series", "Book  3"⟩)) = .error () ∧
    parse_series (some (some ⟨"Series", "Book  3"⟩)) ≠ .ok (some ("Series", 3)) := by
  refine ⟨by decide, by simp [pyFloat, trimChars, digitsToNat, parseExpSuffix],
    rfl, fun hc => ?_⟩
  rw [show parse_series (some (some ⟨"Series", "Book  3"⟩)) = .error () from rfl] at hc
  exact Except.noConfusion hc

/-! ### C6 -/

theorem foldl_addTag_nodup (l acc : List String) (h : acc.Nodup) :
    (l.foldl addTag acc).Nodup := by
  induction l generalizing acc with
  | nil => exact h
  | cons t l ih =>
    apply ih
    unfold addTag
    by_cases ht : t ∈ acc
    · rwa [if_pos ht]
    · rw [if_neg ht, List.nodup_append]
      refine ⟨h, List.nodup_singleton t, ?_⟩
      intro x hx hmem
      rw [List.mem_singleton] at hmem
      exact ht (hmem ▸ hx)

/-- The worker's fold over genres equals the flat fold over all contributed
tags (the skipped cases contribute nothing). -/
theorem convert_foldl_eq_flat (m : List (String × List String))
    (gs : List String) (acc : List String) :
    gs.foldl
      (fun acc g =>
        match lookupGenre m g with
        | none => acc
        | some tags => if tags.isEmpty then acc else tags.foldl addTag acc)
      acc
    = (gs.flatMap (taggedOf m)).foldl addTag acc := by
  induction gs generalizing acc with
  | nil => rfl
  | cons g gs ih =>
    simp only [List.foldl_cons, List.flatMap_cons, List.foldl_append]
    rw [ih]
    congr 1
    unfold taggedOf
    cases hl : lookupGenre m g with
    | none => rfl
    | some tags =>
      cases hte : tags.isEmpty with
      | true => rw [List.isEmpty_iff.mp hte]; simp
      | false => simp [hte]

theorem lookupGenre_lower_congr (m : List (String × List String))
    (g g' : String) (h : pyLower g = pyLower g') :
    lookupGenre m g = lookupGenre m g' := by
  unfold lookupGenre
  rw [h]

theorem flat_tags_lower_congr (m : List (String × List String))
    (gs gs' : List String) (h : gs.map pyLower = gs'.map pyLower) :
    gs.flatMap (taggedOf m) = gs'.flatMap (taggedOf m) := by
  induction gs generalizing gs' with
  | nil =>
    cases gs' with
    | nil => rfl
    | cons g' t' => exact absurd h (by simp)
  | cons g t ih =>
    cases gs' with
    | nil => exact absurd h (by simp)
    | cons g' t' =>
      simp only [List.map_cons, List.cons.injEq] at h
      simp only [List.flatMap_cons]
      rw [ih t' h.2]
      unfold taggedOf
      rw [lookupGenre_lower_congr m g g' h.1]

/-- C6: genre→tag conversion looks keys up case-insensitively (replacing any
genre by one with the same lower-cased form leaves the result unchanged),
equals the first-seen-order deduplication of all the tags the genres map to,
and never returns a tag twice. -/
theorem C6_genre_tag_conversion (m : List (String × List String))
    (gs gs' : List String) (h : gs.map pyLower = gs'.map pyLower) :
    _convert_genres_to_calibre_tags m gs = firstDedup (gs.flatMap (taggedOf m)) ∧
    (_convert_genres_to_calibre_tags m gs).Nodup ∧
    _convert_genres_to_calibre_tags m gs = _convert_genres_to_calibre_tags m gs' := by
  have hflat : ∀ l : List String,
      _convert_genres_to_calibre_tags m l = firstDedup (l.flatMap (taggedOf m)) :=
    fun l => convert_foldl_eq_flat m l []
  refine ⟨hflat gs, ?_, ?_⟩
  · rw [hflat gs]
    exact foldl_addTag_nodup _ [] List.nodup_nil
  · rw [hflat gs, hflat gs']
    unfold firstDedup
    rw [flat_tags_lower_congr m gs gs' h]

/-- The genre→tag map used in the C6 witness: two keys map to overlapping
tag lists. -/
def C6map : List (String × List String) :=
  [("fantasy", ["Fantasy", "Magic"]), ("epic fantasy", ["Fantasy"])]

/-- Witness for C6: `FANTASY` and `Epic Fantasy` both contribute `Fantasy`,
which appears once, first-seen order preserved, and re-casing the genres
changes nothing. -/
theorem C6_genre_tag_conversion_witness :
    (["FANTASY", "Epic Fantasy"].map pyLower
      = ["Fantasy", "EPIC FANTASY"].map pyLower) ∧
    _convert_genres_to_calibre_tags C6map ["FANTASY", "Epic Fantasy"]
      = firstDedup (["FANTASY", "Epic Fantasy"].flatMap (taggedOf C6map)) ∧
    (_convert_genres_to_calibre_tags C6map ["FANTASY", "Epic Fantasy"]).Nodup ∧
    _convert_genres_to_calibre_tags C6map ["FANTASY", "Epic Fantasy"]
      = _convert_genres_to_calibre_tags C6map ["Fantasy", "EPIC FANTASY"] ∧
    _convert_genres_to_calibre_tags C6map ["FANTASY", "Epic Fantasy"]
      = ["Fantasy", "Magic"] := by
  have h := C6_genre_tag_conversion C6map ["FANTASY", "Epic Fantasy"]
    ["Fantasy", "EPIC FANTASY"] (by decide)
  exact ⟨by decide, h.1, h.2.1, h.2.2, by decide⟩

/-! ### C3 -/

/-- C3 (code bug): on a cache miss `download_cover` never reaches the
identify flow — the call passes the keyword argument `hiddenauthors`, which
`identify` does not accept (`identifyCallAccepted = false`), so a `TypeError`
propagates to the caller instead of resolving to "no cover available". -/
theorem C3_download_cover_cache_miss_raises :
    identifyCallAccepted = false ∧
    ∀ abortSet fetchOk : Bool,
      download_cover none abortSet fetchOk = .raisedTypeError :=
  ⟨by decide, fun _ _ => rfl⟩

end AudiblePlugin
